import Mathlib

/-!
Verification of the zero-trust policy-enforcement core of the
cloud-iot-security-framework repository: a shallow embedding of
`src/security/micro_segmentation.py` (zone-based micro-segmentation)
and `src/security/zero_trust.py` (continuous device authentication),
together with theorems settling the specification claims about them.

Modelling conventions: Python `datetime` instants become `Nat` seconds
(the current time is passed explicitly where the code calls
`datetime.utcnow()`); Python floats become `ℚ` (every constant involved
is exactly representable); Python dicts become functions into `Option`;
mutation becomes explicit state passing; `sorted(..., reverse=True)`
becomes a stable sort on the mirrored descending comparison.
-/

namespace IoTSec

/-- The ten security zones of `SecurityZone` (micro_segmentation.py). -/
inductive SecurityZone where
  | external
  | dmz
  | cloud_gateway
  | iot_trusted
  | iot_untrusted
  | iot_quarantine
  | management
  | data_processing
  | ai_analytics
  | admin
  deriving DecidableEq, BEq, Repr

/-- The `.value` string of each zone member. -/
def SecurityZone.value : SecurityZone → String
  | .external => "external"
  | .dmz => "dmz"
  | .cloud_gateway => "cloud_gateway"
  | .iot_trusted => "iot_trusted"
  | .iot_untrusted => "iot_untrusted"
  | .iot_quarantine => "iot_quarantine"
  | .management => "management"
  | .data_processing => "data_processing"
  | .ai_analytics => "ai_analytics"
  | .admin => "admin"

/-- Iteration order of `for zone in SecurityZone` (Python enum definition order). -/
def SecurityZone.all : List SecurityZone :=
  [.external, .dmz, .cloud_gateway, .iot_trusted, .iot_untrusted,
   .iot_quarantine, .management, .data_processing, .ai_analytics, .admin]

/-- The `NetworkPolicy` dataclass. -/
structure NetworkPolicy where
  name : String
  source_zone : SecurityZone
  dest_zone : SecurityZone
  allowed_protocols : List String
  allowed_ports : List Int
  action : String
  priority : Int
  enabled : Bool := true
  deriving DecidableEq, Repr

/-- Predicate `NetworkPolicy.matches`: zone pair equality plus protocol/port membership
with wildcards `"*"` and port `0`. -/
def NetworkPolicy.matches (p : NetworkPolicy) (src dst : SecurityZone)
    (protocol : String) (port : Int) : Bool :=
  decide (p.source_zone = src) && decide (p.dest_zone = dst) &&
  (decide (protocol ∈ p.allowed_protocols) || decide ("*" ∈ p.allowed_protocols)) &&
  (decide (port ∈ p.allowed_ports) || decide ((0 : Int) ∈ p.allowed_ports))

/-- The zones receiving a management-access policy: every zone except
`external` and `iot_quarantine`, in enum order. -/
def managementZones : List SecurityZone :=
  SecurityZone.all.filter
    (fun z => decide (z ≠ .external) && decide (z ≠ .iot_quarantine))

/-- One priority-300 quarantine isolation policy, as built in the final loop of
`_initialize_default_policies`. -/
def quarantineDeny (z : SecurityZone) : NetworkPolicy :=
  { name := "deny_quarantine_to_" ++ z.value
    source_zone := .iot_quarantine
    dest_zone := z
    allowed_protocols := ["*"]
    allowed_ports := [0]
    action := "deny"
    priority := 300 }

/-- The default policy list installed by `_initialize_default_policies`,
in append order. -/
def defaultPolicies : List NetworkPolicy :=
  [ { name := "iot_trusted_to_gateway", source_zone := .iot_trusted,
      dest_zone := .cloud_gateway, allowed_protocols := ["mqtt", "coap", "https"],
      allowed_ports := [1883, 5683, 8883, 443], action := "allow", priority := 100 },
    { name := "gateway_to_processing", source_zone := .cloud_gateway,
      dest_zone := .data_processing, allowed_protocols := ["https", "grpc"],
      allowed_ports := [443, 50051], action := "allow", priority := 100 },
    { name := "processing_to_ai", source_zone := .data_processing,
      dest_zone := .ai_analytics, allowed_protocols := ["https", "grpc"],
      allowed_ports := [443, 50051, 8080], action := "allow", priority := 100 },
    { name := "ai_to_processing", source_zone := .ai_analytics,
      dest_zone := .data_processing, allowed_protocols := ["https"],
      allowed_ports := [443], action := "allow", priority := 100 } ]
  ++ (managementZones.map (fun z =>
    { name := "management_to_" ++ z.value, source_zone := .management,
      dest_zone := z, allowed_protocols := ["ssh", "https"],
      allowed_ports := [22, 443], action := "allow", priority := 90 }))
  ++ [ { name := "admin_to_management", source_zone := .admin,
         dest_zone := .management, allowed_protocols := ["ssh", "https"],
         allowed_ports := [22, 443], action := "allow", priority := 95 },
       { name := "deny_iot_trusted_to_iot_untrusted", source_zone := .iot_trusted,
         dest_zone := .iot_untrusted, allowed_protocols := ["*"],
         allowed_ports := [0], action := "deny", priority := 200 },
       { name := "deny_iot_untrusted_to_iot_trusted", source_zone := .iot_untrusted,
         dest_zone := .iot_trusted, allowed_protocols := ["*"],
         allowed_ports := [0], action := "deny", priority := 200 } ]
  ++ ((SecurityZone.all.filter (fun z => decide (z ≠ .iot_quarantine))).map quarantineDeny)

/-- One record of `traffic_log` (zones are stored as their `.value` strings,
as in the Python dict literal). -/
structure TrafficLogEntry where
  src_device : String
  dst_device : String
  src_zone : String
  dst_zone : String
  protocol : String
  port : Int
  policy : String
  action : String
  allowed : Bool
  deriving DecidableEq, Repr

/-- The `metrics` dict of `MicroSegmentationManager`. -/
structure SegMetrics where
  packets_allowed : Nat
  packets_denied : Nat
  zone_violations : Nat
  lateral_movement_blocked : Nat
  deriving DecidableEq, Repr

/-- State of a `MicroSegmentationManager`. -/
structure SegState where
  device_zones : String → Option SecurityZone
  policies : List NetworkPolicy
  traffic_log : List TrafficLogEntry
  metrics : SegMetrics

/-- Fresh manager state (`__init__`). -/
def SegState.init : SegState :=
  { device_zones := fun _ => none
    policies := defaultPolicies
    traffic_log := []
    metrics := ⟨0, 0, 0, 0⟩ }

/-- Operation `assign_device_zone`. -/
def assign_device_zone (st : SegState) (device_id : String) (zone : SecurityZone) :
    SegState :=
  { st with device_zones := fun d => if d = device_id then some zone else st.device_zones d }

/-- The order in which a policy `a` may precede a policy `b` after
`sorted(self.policies, key=lambda x: x.priority, reverse=True)`:
descending priority. -/
def policyBefore (a b : NetworkPolicy) : Prop :=
  b.priority ≤ a.priority

instance : DecidableRel policyBefore := fun a b => by
  unfold policyBefore
  infer_instance

/-- Embedding of `sorted(self.policies, key=lambda x: x.priority, reverse=True)`:
the sort of Python is stable; a stable sort by a total preorder is unique, and
insertion sort with the non-strict descending comparison is stable, so this
is exactly the list Python produces. -/
def sortedPolicies (ps : List NetworkPolicy) : List NetworkPolicy :=
  ps.insertionSort policyBefore

/-- The `matching_policies` list comprehension of `evaluate_traffic`. -/
def matchingPolicies (ps : List NetworkPolicy) (src dst : SecurityZone)
    (protocol : String) (port : Int) : List NetworkPolicy :=
  (sortedPolicies ps).filter (fun p => p.enabled && p.matches src dst protocol port)

/-- Operation `evaluate_traffic`, returning the verdict together with the updated state. -/
def evaluate_traffic (st : SegState) (src_device dst_device : String)
    (protocol : String) (port : Int) : Bool × SegState :=
  match st.device_zones src_device, st.device_zones dst_device with
  | none, _ =>
      (false, { st with metrics :=
        { st.metrics with packets_denied := st.metrics.packets_denied + 1 } })
  | _, none =>
      (false, { st with metrics :=
        { st.metrics with packets_denied := st.metrics.packets_denied + 1 } })
  | some src_zone, some dst_zone =>
    match matchingPolicies st.policies src_zone dst_zone protocol port with
    | policy :: _ =>
        let allowed := decide (policy.action = "allow")
        let m := st.metrics
        let m :=
          if allowed then
            { m with packets_allowed := m.packets_allowed + 1 }
          else
            let m := { m with packets_denied := m.packets_denied + 1 }
            if (src_zone = SecurityZone.iot_trusted ∨ src_zone = SecurityZone.iot_untrusted) ∧
               (dst_zone = SecurityZone.iot_trusted ∨ dst_zone = SecurityZone.iot_untrusted) then
              { m with lateral_movement_blocked := m.lateral_movement_blocked + 1 }
            else m
        let entry : TrafficLogEntry :=
          { src_device := src_device, dst_device := dst_device,
            src_zone := src_zone.value, dst_zone := dst_zone.value,
            protocol := protocol, port := port, policy := policy.name,
            action := policy.action, allowed := allowed }
        (allowed, { st with metrics := m, traffic_log := st.traffic_log ++ [entry] })
    | [] =>
        (false, { st with metrics :=
          { st.metrics with
            packets_denied := st.metrics.packets_denied + 1,
            zone_violations := st.metrics.zone_violations + 1 } })

example :
    (evaluate_traffic
      (assign_device_zone (assign_device_zone SegState.init "cam_01" .iot_trusted)
        "gw" .cloud_gateway) "cam_01" "gw" "mqtt" 1883).1 = true := by decide

example :
    (evaluate_traffic
      (assign_device_zone (assign_device_zone SegState.init "cam_01" .iot_trusted)
        "plug_02" .iot_untrusted) "cam_01" "plug_02" "mqtt" 1883).1 = false := by decide

/-! ## Zero-trust authenticator (zero_trust.py)

Instants (`datetime`) are `Nat` seconds; the current time is an explicit
argument wherever the code reads `datetime.utcnow()`. Scores are `ℚ`. -/

/-- The `AuthContext` dataclass. -/
structure AuthContext where
  device_id : String
  device_type : String
  auth_method : String
  auth_time : Nat
  expires_at : Nat
  trust_score : ℚ
  behavior_normal : Bool
  location_verified : Bool
  certificate_valid : Bool
  deriving DecidableEq, Repr

/-- Predicate `AuthContext.is_expired`: `datetime.utcnow() >= self.expires_at`. -/
def AuthContext.is_expired (c : AuthContext) (now : Nat) : Bool :=
  decide (c.expires_at ≤ now)

/-- Predicate `AuthContext.is_trusted`. -/
def AuthContext.is_trusted (c : AuthContext) (now : Nat)
    (min_trust_score : ℚ := 70) : Bool :=
  !c.is_expired now &&
  decide (min_trust_score ≤ c.trust_score) &&
  c.behavior_normal &&
  c.certificate_valid

/-- A device certificate, already parsed: only its validity window is
inspected by the code. -/
structure Certificate where
  not_valid_before : Nat
  not_valid_after : Nat
  deriving DecidableEq, Repr

/-- The `credentials` dict: the three keys the verifiers read. -/
structure Credentials where
  device_key : Option String
  certificate : Option Certificate
  token : Option String
  deriving DecidableEq, Repr

/-- The decoded claim set of a JWT token. -/
structure TokenPayload where
  device_id : String
  device_type : String
  auth_method : String
  iat : Nat
  exp : Nat
  trust_score : ℚ
  deriving DecidableEq, Repr

/-- A signed token: the payload plus the secret it was signed with;
a signature check succeeds exactly when the secrets agree, so tampering is
a mismatched secret. -/
structure Token where
  payload : TokenPayload
  secret : String
  deriving DecidableEq, Repr

/-- The `metrics` dict of `ZeroTrustAuthenticator`. -/
structure ZTMetrics where
  auth_attempts : Nat
  auth_success : Nat
  auth_failures : Nat
  token_refreshes : Nat
  trust_violations : Nat
  mtls_verifications : Nat
  continuous_auth_checks : Nat
  deriving DecidableEq, Repr

/-- State of a `ZeroTrustAuthenticator`. `ca_cert` only matters through its
presence, mirroring `self.ca_cert = None` when no `ca_cert_path` is given. -/
structure ZTState where
  jwt_secret : String
  token_lifetime : Nat
  ca_cert : Option Unit
  auth_contexts : String → Option AuthContext
  trust_decay_rate : ℚ
  anomaly_penalty : ℚ
  metrics : ZTMetrics

/-- Fresh authenticator state (`__init__` with `token_lifetime_minutes * 60`
seconds, decay rate `0.1`, anomaly penalty `20.0`). -/
def ZTState.init (secret : String) (token_lifetime_minutes : Nat)
    (ca : Option Unit) : ZTState :=
  { jwt_secret := secret
    token_lifetime := token_lifetime_minutes * 60
    ca_cert := ca
    auth_contexts := fun _ => none
    trust_decay_rate := 1/10
    anomaly_penalty := 20
    metrics := ⟨0, 0, 0, 0, 0, 0, 0⟩ }

/-- Verifier `_verify_jwt_credentials`: `"device_key" in credentials`. -/
def verify_jwt_credentials (credentials : Credentials) : Bool :=
  credentials.device_key.isSome

/-- Verifier `_verify_oauth_token`: token present and non-empty. -/
def verify_oauth_token (token : Option String) : Bool :=
  match token with
  | none => false
  | some t => decide (0 < t.length)

/-- Verifier `_verify_mtls_certificate`: fails when the certificate or the CA
certificate is missing; otherwise counts the verification and accepts
exactly the certificates whose validity window contains `now`. -/
def verify_mtls_certificate (st : ZTState) (cert_pem : Option Certificate)
    (now : Nat) : Bool × ZTState :=
  match cert_pem, st.ca_cert with
  | none, _ => (false, st)
  | _, none => (false, st)
  | some cert, some _ =>
      let st := { st with metrics :=
        { st.metrics with mtls_verifications := st.metrics.mtls_verifications + 1 } }
      if now < cert.not_valid_before || cert.not_valid_after < now then
        (false, st)
      else
        (true, st)

/-- The method dispatch of `authenticate_device`; an unknown method behaves
like a failed verification (failure counted by the caller, no state change). -/
def dispatch_verify (st : ZTState) (credentials : Credentials) (method : String)
    (now : Nat) : Bool × ZTState :=
  match method with
  | "jwt" => (verify_jwt_credentials credentials, st)
  | "mtls" => verify_mtls_certificate st credentials.certificate now
  | "oauth" => (verify_oauth_token credentials.token, st)
  | _ => (false, st)

/-- Operation `authenticate_device`, returning the issued token (if any) and the
updated state. -/
def authenticate_device (st : ZTState) (device_id device_type : String)
    (credentials : Credentials) (method : String) (now : Nat) :
    Option Token × ZTState :=
  let st1 := { st with metrics :=
    { st.metrics with auth_attempts := st.metrics.auth_attempts + 1 } }
  let vr := dispatch_verify st1 credentials method now
  if vr.1 then
    let st2 := vr.2
    let auth_context : AuthContext :=
      { device_id := device_id
        device_type := device_type
        auth_method := method
        auth_time := now
        expires_at := now + st2.token_lifetime
        trust_score := 100
        behavior_normal := true
        location_verified := true
        certificate_valid := true }
    let st3 := { st2 with auth_contexts :=
      fun d => if d = device_id then some auth_context else st2.auth_contexts d }
    let token : Token :=
      { payload :=
          { device_id := device_id, device_type := device_type,
            auth_method := method, iat := now,
            exp := now + st2.token_lifetime, trust_score := 100 }
        secret := st2.jwt_secret }
    (some token,
      { st3 with metrics :=
        { st3.metrics with auth_success := st3.metrics.auth_success + 1 } })
  else
    (none,
      { vr.2 with metrics :=
        { vr.2.metrics with auth_failures := vr.2.metrics.auth_failures + 1 } })

/-- Operation `verify_token`: `jwt.decode` first verifies the signature (failure is
`InvalidTokenError`), then the `exp` claim (failure is
`ExpiredSignatureError`); both handlers return `None`. -/
def verify_token (st : ZTState) (token : Token) (now : Nat) :
    Option TokenPayload :=
  if token.secret ≠ st.jwt_secret then none
  else if token.payload.exp ≤ now then none
  else some token.payload

/-- Operation `continuous_authentication_check`, with the anomaly score of
`behavior_data` passed directly. -/
def continuous_authentication_check (st : ZTState) (device_id : String)
    (anomaly_score : ℚ) (now : Nat) : Bool × ZTState :=
  let st := { st with metrics :=
    { st.metrics with continuous_auth_checks := st.metrics.continuous_auth_checks + 1 } }
  match st.auth_contexts device_id with
  | none => (false, st)
  | some context =>
    if context.is_expired now then (false, st)
    else
      let anomaly_detected : Bool := decide ((1/2 : ℚ) < anomaly_score)
      let context :=
        if anomaly_detected then
          { context with
            trust_score := context.trust_score - st.anomaly_penalty,
            behavior_normal := false }
        else
          let time_since_auth : ℚ := (now : ℚ) - (context.auth_time : ℚ)
          let decay := st.trust_decay_rate * (time_since_auth / 60)
          { context with trust_score := max 0 (context.trust_score - decay) }
      let trusted := context.is_trusted now 70
      let st := { st with auth_contexts :=
        fun d => if d = device_id then some context else st.auth_contexts d }
      if trusted then (trusted, st)
      else
        (trusted, { st with metrics :=
          { st.metrics with trust_violations := st.metrics.trust_violations + 1 } })

/-- Operation `refresh_token`. -/
def refresh_token (st : ZTState) (device_id : String) (now : Nat) :
    Option Token × ZTState :=
  match st.auth_contexts device_id with
  | none => (none, st)
  | some context =>
    if !context.is_trusted now 70 then (none, st)
    else
      let context := { context with
        auth_time := now, expires_at := now + st.token_lifetime }
      let token : Token :=
        { payload :=
            { device_id := device_id, device_type := context.device_type,
              auth_method := context.auth_method, iat := now,
              exp := context.expires_at, trust_score := context.trust_score }
          secret := st.jwt_secret }
      (some token,
        { st with
          auth_contexts :=
            fun d => if d = device_id then some context else st.auth_contexts d,
          metrics :=
            { st.metrics with token_refreshes := st.metrics.token_refreshes + 1 } })

/-- Runs `k` consecutive `continuous_authentication_check` calls at the given
instants, returning the result of the last call and the final state. -/
def run_checks (st : ZTState) (device_id : String) (anomaly_score : ℚ) :
    List Nat → Bool × ZTState
  | [] => (true, st)
  | [t] => continuous_authentication_check st device_id anomaly_score t
  | t :: ts =>
      run_checks (continuous_authentication_check st device_id anomaly_score t).2
        device_id anomaly_score ts

/-! ## Helper lemmas -/

theorem verify_mtls_preserves (st : ZTState) (cert : Option Certificate) (now : Nat) :
    (verify_mtls_certificate st cert now).2.token_lifetime = st.token_lifetime ∧
    (verify_mtls_certificate st cert now).2.auth_contexts = st.auth_contexts ∧
    (verify_mtls_certificate st cert now).2.jwt_secret = st.jwt_secret := by
  unfold verify_mtls_certificate
  rcases cert with _ | c
  · simp
  · rcases hca : st.ca_cert with _ | u
    · simp
    · simp only [hca]
      split <;> simp

theorem dispatch_verify_preserves (st : ZTState) (credentials : Credentials)
    (method : String) (now : Nat) :
    (dispatch_verify st credentials method now).2.token_lifetime = st.token_lifetime ∧
    (dispatch_verify st credentials method now).2.auth_contexts = st.auth_contexts ∧
    (dispatch_verify st credentials method now).2.jwt_secret = st.jwt_secret := by
  unfold dispatch_verify
  split
  · simp
  · exact verify_mtls_preserves st credentials.certificate now
  · simp
  · simp

/-! ## Claim theorems -/

/-- C10 (confirmed): if the authenticator was constructed without a CA
certificate (`ca_cert = None`), every `authenticate_device` call with method
`mtls` fails and creates or modifies no context, regardless of the presented
credentials. -/
theorem mtls_without_ca_always_fails (st : ZTState) (device_id device_type : String)
    (credentials : Credentials) (now : Nat) (hca : st.ca_cert = none) :
    (authenticate_device st device_id device_type credentials "mtls" now).1 = none ∧
    (authenticate_device st device_id device_type credentials "mtls" now).2.auth_contexts
      = st.auth_contexts := by
  unfold authenticate_device dispatch_verify verify_mtls_certificate
  rcases hc : credentials.certificate with _ | cert
  · simp [hc]
  · simp [hc, hca]

/-- Witness for C10 at a concrete input: a non-expired certificate is
presented, but no CA certificate is configured, so authentication fails. -/
theorem mtls_without_ca_always_fails_witness :
    (authenticate_device (ZTState.init "s" 5 none) "dev" "camera"
      ⟨none, some ⟨0, 1000⟩, none⟩ "mtls" 0).1 = none :=
  (mtls_without_ca_always_fails (ZTState.init "s" 5 none) "dev" "camera"
    ⟨none, some ⟨0, 1000⟩, none⟩ 0 rfl).1

/-- C7 (confirmed): every successful `authenticate_device` call replaces the
stored context with a fresh one having `trust_score = 100`,
`behavior_normal = true` and `expires_at = auth_time + token_lifetime`,
whatever context (degraded, expired, or none) was stored before. -/
theorem authenticate_success_resets_context (st : ZTState)
    (device_id device_type : String) (credentials : Credentials) (method : String)
    (now : Nat) (tok : Token)
    (h : (authenticate_device st device_id device_type credentials method now).1
          = some tok) :
    (authenticate_device st device_id device_type credentials method now).2.auth_contexts
        device_id
      = some { device_id := device_id, device_type := device_type,
               auth_method := method, auth_time := now,
               expires_at := now + st.token_lifetime, trust_score := 100,
               behavior_normal := true, location_verified := true,
               certificate_valid := true } := by
  have hp := dispatch_verify_preserves
    { st with metrics :=
      { st.metrics with auth_attempts := st.metrics.auth_attempts + 1 } }
    credentials method now
  cases hv : (dispatch_verify
      { st with metrics :=
        { st.metrics with auth_attempts := st.metrics.auth_attempts + 1 } }
      credentials method now).1 with
  | false =>
    simp only [authenticate_device, hv] at h
    simp at h
  | true =>
    simp only [authenticate_device, hv] at h ⊢
    simp [hp.1]

/-- Witness for C7: a concrete successful jwt authentication stores the fresh
full-trust context. -/
theorem authenticate_success_resets_context_witness :
    (authenticate_device (ZTState.init "s" 5 none) "dev" "camera"
        ⟨some "k", none, none⟩ "jwt" 7).2.auth_contexts "dev"
      = some { device_id := "dev", device_type := "camera",
               auth_method := "jwt", auth_time := 7,
               expires_at := 7 + (ZTState.init "s" 5 none).token_lifetime,
               trust_score := 100, behavior_normal := true,
               location_verified := true, certificate_valid := true } :=
  authenticate_success_resets_context (ZTState.init "s" 5 none) "dev" "camera"
    ⟨some "k", none, none⟩ "jwt" 7
    ⟨⟨"dev", "camera", "jwt", 7, 7 + 300, 100⟩, "s"⟩ (by decide)

/-- C6 (confirmed): with a stored context, `refresh_token` fails whenever the
device is not currently trusted (in particular whenever `trust_score < 70`,
even with an unexpired session) and leaves the state unchanged; on success it
sets `auth_time := now` and `expires_at := now + token_lifetime` while leaving
`trust_score` and every other context field unchanged. -/
theorem refresh_token_trust_gate_and_frame (st : ZTState) (device_id : String)
    (c : AuthContext) (now : Nat)
    (hctx : st.auth_contexts device_id = some c) :
    (c.trust_score < 70 → refresh_token st device_id now = (none, st)) ∧
    (c.is_trusted now 70 = false → refresh_token st device_id now = (none, st)) ∧
    (c.is_trusted now 70 = true →
      (∃ tok, (refresh_token st device_id now).1 = some tok) ∧
      (refresh_token st device_id now).2.auth_contexts device_id =
        some { c with auth_time := now, expires_at := now + st.token_lifetime }) := by
  have hlow : c.trust_score < 70 → c.is_trusted now 70 = false := by
    intro hlt
    unfold AuthContext.is_trusted
    simp [decide_eq_false (not_le.2 hlt)]
  unfold refresh_token
  rw [hctx]
  refine ⟨?_, ?_, ?_⟩
  · intro hlt
    simp [hlow hlt]
  · intro hf
    simp [hf]
  · intro ht
    simp [ht]

/-- Witness for C6: a trusted context is refreshed in place, with the trust
score carried over unchanged. -/
theorem refresh_token_trust_gate_and_frame_witness :
    (refresh_token
        { ZTState.init "s" 5 none with
          auth_contexts := fun d => if d = "dev"
            then some ⟨"dev", "camera", "jwt", 0, 300, 80, true, true, true⟩
            else none }
        "dev" 10).2.auth_contexts "dev"
      = some { (⟨"dev", "camera", "jwt", 0, 300, 80, true, true, true⟩ : AuthContext) with
               auth_time := 10,
               expires_at := 10 + ({ ZTState.init "s" 5 none with
                 auth_contexts := fun d => if d = "dev"
                   then some ⟨"dev", "camera", "jwt", 0, 300, 80, true, true, true⟩
                   else none } : ZTState).token_lifetime } :=
  ((refresh_token_trust_gate_and_frame _ "dev"
      ⟨"dev", "camera", "jwt", 0, 300, 80, true, true, true⟩ 10 rfl).2.2
    (by decide)).2

/-- C3 counterexample: an expired token (correct secret, `exp` in the past)
and a tampered token (wrong secret) produce the very same result value
`none` from `verify_token`: the two failure classes are collapsed, not
distinguishable. -/
theorem verify_token_outcomes_collapse_cx :
    ((⟨⟨"d", "t", "jwt", 0, 10, 100⟩, "secret"⟩ : Token).secret
        = (ZTState.init "secret" 5 none).jwt_secret) ∧
    ((⟨⟨"d", "t", "jwt", 0, 10, 100⟩, "secret"⟩ : Token).payload.exp ≤ 20) ∧
    ((⟨⟨"d", "t", "jwt", 0, 100, 100⟩, "wrong"⟩ : Token).secret
        ≠ (ZTState.init "secret" 5 none).jwt_secret) ∧
    (20 < (⟨⟨"d", "t", "jwt", 0, 100, 100⟩, "wrong"⟩ : Token).payload.exp) ∧
    verify_token (ZTState.init "secret" 5 none)
        ⟨⟨"d", "t", "jwt", 0, 10, 100⟩, "secret"⟩ 20 = none ∧
    verify_token (ZTState.init "secret" 5 none)
        ⟨⟨"d", "t", "jwt", 0, 100, 100⟩, "wrong"⟩ 20 = none ∧
    verify_token (ZTState.init "secret" 5 none)
        ⟨⟨"d", "t", "jwt", 0, 10, 100⟩, "secret"⟩ 20
      = verify_token (ZTState.init "secret" 5 none)
        ⟨⟨"d", "t", "jwt", 0, 100, 100⟩, "wrong"⟩ 20 := by
  decide

/-- C3 amended: `verify_token` rejects an expired token and rejects a
tampered token, but both failure classes yield the same result value `none`;
they are distinguished only in log messages, not in the returned value. -/
theorem verify_token_failures_both_none (st : ZTState) (t1 t2 : Token) (now : Nat)
    (h1s : t1.secret = st.jwt_secret) (h1e : t1.payload.exp ≤ now)
    (h2s : t2.secret ≠ st.jwt_secret) :
    verify_token st t1 now = none ∧ verify_token st t2 now = none ∧
    verify_token st t1 now = verify_token st t2 now := by
  unfold verify_token
  refine ⟨?_, ?_, ?_⟩
  · simp [h1s, h1e]
  · simp [h2s]
  · simp [h1s, h1e, h2s]

/-- Witness for the amended C3 at concrete tokens. -/
theorem verify_token_failures_both_none_witness :
    verify_token (ZTState.init "k0" 5 none) ⟨⟨"a", "b", "jwt", 0, 5, 100⟩, "k0"⟩ 9
      = none ∧
    verify_token (ZTState.init "k0" 5 none) ⟨⟨"a", "b", "jwt", 0, 999, 100⟩, "k1"⟩ 9
      = none ∧
    verify_token (ZTState.init "k0" 5 none) ⟨⟨"a", "b", "jwt", 0, 5, 100⟩, "k0"⟩ 9
      = verify_token (ZTState.init "k0" 5 none) ⟨⟨"a", "b", "jwt", 0, 999, 100⟩, "k1"⟩ 9 :=
  verify_token_failures_both_none (ZTState.init "k0" 5 none)
    ⟨⟨"a", "b", "jwt", 0, 5, 100⟩, "k0"⟩ ⟨⟨"a", "b", "jwt", 0, 999, 100⟩, "k1"⟩ 9
    rfl (by decide) (by decide)

/-- Authenticator state used for the C8 counterexample: one stored context
that expired at instant 10. -/
def stC8 : ZTState :=
  { ZTState.init "s" 5 none with
    auth_contexts := fun d =>
      if d = "dev" then some ⟨"dev", "camera", "jwt", 0, 10, 100, true, true, true⟩
      else none }

/-- C8 counterexample: a `continuous_authentication_check` against an expired
context fails (result `false`) yet leaves `trust_violations` at 0 — the
claimed increment on every failure does not happen on the expired path. -/
theorem expired_check_skips_trust_violations_cx :
    ((stC8.auth_contexts "dev").map (fun c => c.is_expired 20) = some true) ∧
    (continuous_authentication_check stC8 "dev" 0 20).1 = false ∧
    stC8.metrics.trust_violations = 0 ∧
    (continuous_authentication_check stC8 "dev" 0 20).2.metrics.trust_violations = 0 := by
  decide

/-- C8 amended: `trust_violations` increases by exactly 1 on a failing check
only when a context is stored and unexpired; failures caused by a missing or
expired context return `false` without touching the counter. -/
theorem trust_violations_increment_rule (st : ZTState) (device_id : String)
    (anomaly_score : ℚ) (now : Nat) :
    (st.auth_contexts device_id = none →
      (continuous_authentication_check st device_id anomaly_score now).1 = false ∧
      (continuous_authentication_check st device_id anomaly_score now).2.metrics.trust_violations
        = st.metrics.trust_violations) ∧
    (∀ c, st.auth_contexts device_id = some c → c.is_expired now = true →
      (continuous_authentication_check st device_id anomaly_score now).1 = false ∧
      (continuous_authentication_check st device_id anomaly_score now).2.metrics.trust_violations
        = st.metrics.trust_violations) ∧
    (∀ c, st.auth_contexts device_id = some c → c.is_expired now = false →
      ((continuous_authentication_check st device_id anomaly_score now).1 = false →
        (continuous_authentication_check st device_id anomaly_score now).2.metrics.trust_violations
          = st.metrics.trust_violations + 1) ∧
      ((continuous_authentication_check st device_id anomaly_score now).1 = true →
        (continuous_authentication_check st device_id anomaly_score now).2.metrics.trust_violations
          = st.metrics.trust_violations)) := by
  refine ⟨?_, ?_, ?_⟩
  · intro hnone
    simp [continuous_authentication_check, hnone]
  · intro c hctx hexp
    simp [continuous_authentication_check, hctx, hexp]
  · intro c hctx hexp
    simp only [continuous_authentication_check, hctx, hexp, Bool.false_eq_true, if_false]
    split <;> split <;> rename_i htr <;> refine ⟨fun hr => ?_, fun hr => ?_⟩ <;>
      simp_all

/-- Witness for the amended C8: a stored, unexpired context failing the trust
evaluation (strong anomaly drives `behavior_normal` to false) increments
`trust_violations` from 0 to 1. -/
theorem trust_violations_increment_rule_witness :
    (continuous_authentication_check
        { ZTState.init "s" 5 none with
          auth_contexts := fun d =>
            if d = "dev" then some ⟨"dev", "camera", "jwt", 0, 300, 100, true, true, true⟩
            else none }
        "dev" 1 0).2.metrics.trust_violations
      = ({ ZTState.init "s" 5 none with
          auth_contexts := fun d =>
            if d = "dev" then some ⟨"dev", "camera", "jwt", 0, 300, 100, true, true, true⟩
            else none } : ZTState).metrics.trust_violations + 1 :=
  ((trust_violations_increment_rule _ "dev" 1 0).2.2
    ⟨"dev", "camera", "jwt", 0, 300, 100, true, true, true⟩ rfl (by decide)).1
    (by with_unfolding_all decide)

/-! ## C4: repeated anomaly checks -/

/-- One `continuous_authentication_check` under a stored, unexpired context
and an anomaly score above 0.5: the check fails, the stored score drops by
exactly the 20-point penalty with `behavior_normal` cleared, and the
configuration fields of the state are untouched. -/
theorem anomaly_check_step (st : ZTState) (device_id : String) (c : AuthContext)
    (score : ℚ) (t : Nat)
    (hctx : st.auth_contexts device_id = some c)
    (hscore : 1/2 < score) (hexp : t < c.expires_at)
    (hpen : st.anomaly_penalty = 20) :
    (continuous_authentication_check st device_id score t).1 = false ∧
    (continuous_authentication_check st device_id score t).2.auth_contexts device_id
      = some { c with trust_score := c.trust_score - 20, behavior_normal := false } ∧
    (continuous_authentication_check st device_id score t).2.anomaly_penalty
      = st.anomaly_penalty := by
  have h1 : c.is_expired t = false := by
    unfold AuthContext.is_expired
    simp [not_le.2 hexp]
  have h2 : decide ((1/2 : ℚ) < score) = true := decide_eq_true hscore
  simp only [continuous_authentication_check, hctx, h1, h2, hpen]
  simp [AuthContext.is_trusted]

/-- Running any nonempty sequence of anomaly checks (score above 0.5, every
instant before the stored expiry): every intermediate and final check fails,
and the stored score drops by 20 per check without any clamping. -/
theorem run_checks_anomaly (device_id : String) (score : ℚ) (hscore : 1/2 < score) :
    ∀ (times : List Nat) (st : ZTState) (c : AuthContext),
      st.auth_contexts device_id = some c →
      st.anomaly_penalty = 20 →
      (∀ t ∈ times, t < c.expires_at) →
      times ≠ [] →
      (run_checks st device_id score times).1 = false ∧
      ∃ c', (run_checks st device_id score times).2.auth_contexts device_id = some c' ∧
        c'.trust_score = c.trust_score - 20 * times.length ∧
        c'.behavior_normal = false ∧
        c'.expires_at = c.expires_at := by
  intro times
  induction times with
  | nil => intro st c _ _ _ hne; exact absurd rfl hne
  | cons t ts ih =>
    intro st c hctx hpen hexp hne
    obtain ⟨h1, h2, h3⟩ := anomaly_check_step st device_id c score t hctx hscore
      (hexp t (by simp)) hpen
    cases ts with
    | nil =>
      refine ⟨h1, ⟨_, h2, ?_, rfl, rfl⟩⟩
      show c.trust_score - 20
        = c.trust_score - 20 * (([t] : List Nat).length : ℚ)
      norm_num
    | cons t2 ts2 =>
      have hrec := ih (continuous_authentication_check st device_id score t).2
        { c with trust_score := c.trust_score - 20, behavior_normal := false }
        h2 (h3.trans hpen)
        (fun u hu => hexp u (by simp [hu]))
        (by simp)
      have heq : run_checks st device_id score (t :: t2 :: ts2)
          = run_checks (continuous_authentication_check st device_id score t).2
              device_id score (t2 :: ts2) := rfl
      rw [heq]
      obtain ⟨hr1, c', hc', hsc, hbn, hex⟩ := hrec
      refine ⟨hr1, ⟨c', hc', ?_, hbn, hex⟩⟩
      rw [hsc]
      show c.trust_score - 20 - 20 * (((t2 :: ts2) : List Nat).length : ℚ)
        = c.trust_score - 20 * (((t :: t2 :: ts2) : List Nat).length : ℚ)
      simp only [List.length_cons]
      push_cast
      ring

/-- C4 corrected: starting from a stored unexpired context fresh from
`authenticate_device` (`trust_score = 100`), after `k ≥ 1` consecutive
anomaly checks (score > 0.5, no refresh/re-auth between them, every call
before the expiry) the stored trust score equals `100 − 20k` — the anomaly
branch performs no clamping, so the score goes negative for `k ≥ 6` — and
every one of these checks (the first included, since `behavior_normal` is
cleared) reports the device untrusted. -/
theorem anomaly_checks_trust_score (st : ZTState) (device_id : String)
    (c : AuthContext) (score : ℚ) (times : List Nat)
    (hctx : st.auth_contexts device_id = some c)
    (hpen : st.anomaly_penalty = 20)
    (hfresh : c.trust_score = 100)
    (hscore : 1/2 < score)
    (hexp : ∀ t ∈ times, t < c.expires_at)
    (hne : times ≠ []) :
    ((run_checks st device_id score times).2.auth_contexts device_id).map
        AuthContext.trust_score = some (100 - 20 * (times.length : ℚ)) ∧
    (run_checks st device_id score times).1 = false := by
  obtain ⟨h1, c', hc', hsc, _, _⟩ :=
    run_checks_anomaly device_id score hscore times st c hctx hpen hexp hne
  refine ⟨?_, h1⟩
  rw [hc']
  simp [hsc, hfresh]

/-- Authenticator state used for the C4 counterexample and witness: a fresh
full-trust context expiring at instant 300. -/
def stC4 : ZTState :=
  { ZTState.init "s" 5 none with
    auth_contexts := fun d =>
      if d = "dev" then some ⟨"dev", "camera", "jwt", 0, 300, 100, true, true, true⟩
      else none }

/-- C4 counterexample: after 6 anomaly checks the stored score is −20, not
the claimed clamped value `max 0 (100 − 20·6) = 0`; and already the first
anomaly check reports untrusted although the score (80) is still ≥ 70. -/
theorem trust_score_not_clamped_cx :
    ((run_checks stC4 "dev" (3/5) [0, 0, 0, 0, 0, 0]).2.auth_contexts "dev").map
        AuthContext.trust_score = some (-20) ∧
    max (0 : ℚ) (100 - 20 * 6) = 0 ∧
    ((-20 : ℚ) ≠ 0) ∧
    (run_checks stC4 "dev" (3/5) [0]).1 = false ∧
    ((run_checks stC4 "dev" (3/5) [0]).2.auth_contexts "dev").map
        AuthContext.trust_score = some 80 ∧
    ((70 : ℚ) ≤ 80) := by
  refine ⟨by with_unfolding_all decide, by norm_num, by norm_num,
    by with_unfolding_all decide, by with_unfolding_all decide, by norm_num⟩

/-- Witness for the corrected C4 at two concrete checks: score 100 − 20·2. -/
theorem anomaly_checks_trust_score_witness :
    ((run_checks stC4 "dev" (3/5) [0, 1]).2.auth_contexts "dev").map
        AuthContext.trust_score
          = some (100 - 20 * ((([0, 1] : List Nat).length : ℚ))) ∧
    (run_checks stC4 "dev" (3/5) [0, 1]).1 = false :=
  anomaly_checks_trust_score stC4 "dev"
    ⟨"dev", "camera", "jwt", 0, 300, 100, true, true, true⟩ (3/5) [0, 1]
    rfl rfl rfl (by norm_num) (by decide) (by simp)

/-! ## C2, C9, C5: evaluate_traffic accounting -/

/-- C2 counterexample: with both zones unassigned, `evaluate_traffic` denies
but increments `packets_denied` — the policy-deny counter the claim says is
left untouched — and no other counter moves (the code has no dedicated
configuration-fault counter; `zone_violations` stays 0 on this path). -/
theorem unresolved_zone_counts_policy_deny_cx :
    SegState.init.device_zones "x" = none ∧
    (evaluate_traffic SegState.init "x" "y" "mqtt" 1883).1 = false ∧
    SegState.init.metrics.packets_denied = 0 ∧
    (evaluate_traffic SegState.init "x" "y" "mqtt" 1883).2.metrics.packets_denied = 1 ∧
    (evaluate_traffic SegState.init "x" "y" "mqtt" 1883).2.metrics.zone_violations = 0 ∧
    (evaluate_traffic SegState.init "x" "y" "mqtt" 1883).2.metrics.lateral_movement_blocked = 0 ∧
    (evaluate_traffic SegState.init "x" "y" "mqtt" 1883).2.metrics.packets_allowed = 0 := by
  decide

/-- C2 amended: when either device has no zone assignment,
`evaluate_traffic` fail-closes to deny and increments `packets_denied` (the
ordinary policy-deny counter); no separate configuration-fault counter
exists, and `zone_violations`, `packets_allowed`,
`lateral_movement_blocked` and the traffic log are untouched. -/
theorem unresolved_zone_fail_closed (st : SegState)
    (src_device dst_device protocol : String) (port : Int)
    (h : st.device_zones src_device = none ∨ st.device_zones dst_device = none) :
    (evaluate_traffic st src_device dst_device protocol port).1 = false ∧
    (evaluate_traffic st src_device dst_device protocol port).2.metrics.packets_denied
      = st.metrics.packets_denied + 1 ∧
    (evaluate_traffic st src_device dst_device protocol port).2.metrics.zone_violations
      = st.metrics.zone_violations ∧
    (evaluate_traffic st src_device dst_device protocol port).2.metrics.packets_allowed
      = st.metrics.packets_allowed ∧
    (evaluate_traffic st src_device dst_device protocol port).2.metrics.lateral_movement_blocked
      = st.metrics.lateral_movement_blocked ∧
    (evaluate_traffic st src_device dst_device protocol port).2.traffic_log
      = st.traffic_log := by
  rcases hs : st.device_zones src_device with _ | sz
  · simp [evaluate_traffic, hs]
  · rcases hd : st.device_zones dst_device with _ | dz
    · simp [evaluate_traffic, hs, hd]
    · rcases h with h | h
      · rw [hs] at h
        simp at h
      · rw [hd] at h
        simp at h

/-- Witness for the amended C2 at a concrete unassigned pair. -/
theorem unresolved_zone_fail_closed_witness :
    (evaluate_traffic SegState.init "s1" "s2" "https" 443).1 = false ∧
    (evaluate_traffic SegState.init "s1" "s2" "https" 443).2.metrics.packets_denied
      = SegState.init.metrics.packets_denied + 1 :=
  ⟨(unresolved_zone_fail_closed SegState.init "s1" "s2" "https" 443 (Or.inl rfl)).1,
   (unresolved_zone_fail_closed SegState.init "s1" "s2" "https" 443 (Or.inl rfl)).2.1⟩

/-- Segmentation state for the C9 counterexample: two devices in the same
`iot_trusted` zone, which no default policy covers. -/
def stC9 : SegState :=
  assign_device_zone (assign_device_zone SegState.init "a" .iot_trusted)
    "b" .iot_trusted

/-- C9 counterexample: with both zones assigned, a flow taking the
no-policy-match default-deny path appends no TrafficLogEntry at all,
against the claimed exactly-one-entry append. -/
theorem default_deny_path_logs_nothing_cx :
    stC9.device_zones "a" = some .iot_trusted ∧
    stC9.device_zones "b" = some .iot_trusted ∧
    (evaluate_traffic stC9 "a" "b" "mqtt" 1883).1 = false ∧
    stC9.traffic_log.length = 0 ∧
    (evaluate_traffic stC9 "a" "b" "mqtt" 1883).2.traffic_log.length = 0 := by
  decide

/-- C9 amended: with both zones assigned, exactly one of
`packets_allowed`/`packets_denied` is incremented, matching the verdict; a
TrafficLogEntry is appended exactly when some policy matched — the
default-deny path increments `packets_denied` (and `zone_violations`) but
logs nothing. -/
theorem traffic_accounting (st : SegState) (src_device dst_device protocol : String)
    (port : Int) (sz dz : SecurityZone)
    (hs : st.device_zones src_device = some sz)
    (hd : st.device_zones dst_device = some dz) :
    ((evaluate_traffic st src_device dst_device protocol port).1 = true →
      (evaluate_traffic st src_device dst_device protocol port).2.metrics.packets_allowed
        = st.metrics.packets_allowed + 1 ∧
      (evaluate_traffic st src_device dst_device protocol port).2.metrics.packets_denied
        = st.metrics.packets_denied) ∧
    ((evaluate_traffic st src_device dst_device protocol port).1 = false →
      (evaluate_traffic st src_device dst_device protocol port).2.metrics.packets_denied
        = st.metrics.packets_denied + 1 ∧
      (evaluate_traffic st src_device dst_device protocol port).2.metrics.packets_allowed
        = st.metrics.packets_allowed) ∧
    (matchingPolicies st.policies sz dz protocol port ≠ [] →
      (evaluate_traffic st src_device dst_device protocol port).2.traffic_log.length
        = st.traffic_log.length + 1 ∧
      (evaluate_traffic st src_device dst_device protocol port).2.metrics.zone_violations
        = st.metrics.zone_violations) ∧
    (matchingPolicies st.policies sz dz protocol port = [] →
      (evaluate_traffic st src_device dst_device protocol port).2.traffic_log
        = st.traffic_log ∧
      (evaluate_traffic st src_device dst_device protocol port).1 = false ∧
      (evaluate_traffic st src_device dst_device protocol port).2.metrics.zone_violations
        = st.metrics.zone_violations + 1) := by
  simp only [evaluate_traffic, hs, hd]
  cases hm : matchingPolicies st.policies sz dz protocol port with
  | nil => simp [hm]
  | cons p rest =>
    cases hal : decide (p.action = "allow") with
    | true => simp [hm, hal]
    | false =>
      simp only [hm, hal, Bool.false_eq_true, if_false]
      refine ⟨?_, ?_, ?_, ?_⟩
      · intro h1
        simp at h1
      · intro _
        constructor <;> split <;> simp
      · intro _
        constructor
        · simp
        · split <;> simp
      · intro hnil
        exact absurd hnil (by simp)

/-- Witness for the amended C9: an allowed default-pipeline flow increments
`packets_allowed` only. -/
theorem traffic_accounting_witness :
    (evaluate_traffic
        (assign_device_zone (assign_device_zone SegState.init "cam" .iot_trusted)
          "gw" .cloud_gateway) "cam" "gw" "mqtt" 1883).2.metrics.packets_allowed
      = (assign_device_zone (assign_device_zone SegState.init "cam" .iot_trusted)
          "gw" .cloud_gateway).metrics.packets_allowed + 1 ∧
    (evaluate_traffic
        (assign_device_zone (assign_device_zone SegState.init "cam" .iot_trusted)
          "gw" .cloud_gateway) "cam" "gw" "mqtt" 1883).2.metrics.packets_denied
      = (assign_device_zone (assign_device_zone SegState.init "cam" .iot_trusted)
          "gw" .cloud_gateway).metrics.packets_denied :=
  (traffic_accounting _ "cam" "gw" "mqtt" 1883 .iot_trusted .cloud_gateway
    (by decide) (by decide)).1 (by decide)

/-- Segmentation state for the C5 counterexample: two devices in the same
`iot_trusted` zone. -/
def stC5 : SegState :=
  assign_device_zone (assign_device_zone SegState.init "a" .iot_trusted)
    "b" .iot_trusted

/-- C5 counterexample: a denied flow with both endpoints in
`{iot_trusted, iot_untrusted}` that is denied on the no-policy-match
default-deny path leaves `lateral_movement_blocked` unchanged at 0, against
the claimed unconditional increment. -/
theorem same_zone_deny_skips_lateral_counter_cx :
    stC5.device_zones "a" = some .iot_trusted ∧
    stC5.device_zones "b" = some .iot_trusted ∧
    (evaluate_traffic stC5 "a" "b" "mqtt" 1883).1 = false ∧
    stC5.metrics.lateral_movement_blocked = 0 ∧
    (evaluate_traffic stC5 "a" "b" "mqtt" 1883).2.metrics.lateral_movement_blocked = 0 := by
  decide

/-- C5 amended: for a denied flow whose two endpoints both sit in
`{iot_trusted, iot_untrusted}`, `lateral_movement_blocked` increases by
exactly 1 when the deny comes from an explicit matching policy, and is left
unchanged when the deny comes from the no-policy-match default-deny path. -/
theorem lateral_movement_counter_rule (st : SegState)
    (src_device dst_device protocol : String) (port : Int)
    (sz dz : SecurityZone)
    (hs : st.device_zones src_device = some sz)
    (hd : st.device_zones dst_device = some dz)
    (hsz : sz = .iot_trusted ∨ sz = .iot_untrusted)
    (hdz : dz = .iot_trusted ∨ dz = .iot_untrusted)
    (hdeny : (evaluate_traffic st src_device dst_device protocol port).1 = false) :
    (matchingPolicies st.policies sz dz protocol port ≠ [] →
      (evaluate_traffic st src_device dst_device protocol port).2.metrics.lateral_movement_blocked
        = st.metrics.lateral_movement_blocked + 1) ∧
    (matchingPolicies st.policies sz dz protocol port = [] →
      (evaluate_traffic st src_device dst_device protocol port).2.metrics.lateral_movement_blocked
        = st.metrics.lateral_movement_blocked) := by
  simp only [evaluate_traffic, hs, hd] at hdeny ⊢
  cases hm : matchingPolicies st.policies sz dz protocol port with
  | nil => simp [hm]
  | cons p rest =>
    rw [hm] at hdeny
    cases hal : decide (p.action = "allow") with
    | true => simp [hal] at hdeny
    | false =>
      simp only [hm, hal, Bool.false_eq_true, if_false]
      refine ⟨fun _ => ?_, fun hnil => absurd hnil (by simp)⟩
      rw [if_pos ⟨hsz, hdz⟩]

/-- Witness for the amended C5: the explicit `iot_trusted → iot_untrusted`
deny rule fires and bumps the counter. -/
theorem lateral_movement_counter_rule_witness :
    (evaluate_traffic
        (assign_device_zone (assign_device_zone SegState.init "cam" .iot_trusted)
          "plug" .iot_untrusted) "cam" "plug" "mqtt" 1883).2.metrics.lateral_movement_blocked
      = (assign_device_zone (assign_device_zone SegState.init "cam" .iot_trusted)
          "plug" .iot_untrusted).metrics.lateral_movement_blocked + 1 :=
  (lateral_movement_counter_rule _ "cam" "plug" "mqtt" 1883
    .iot_trusted .iot_untrusted (by decide) (by decide)
    (Or.inl rfl) (Or.inr rfl) (by decide)).1 (by decide)

/-! ## C1: quarantine isolation invariant -/

instance : IsTotal NetworkPolicy policyBefore :=
  ⟨fun a b => le_total b.priority a.priority⟩

instance : IsTrans NetworkPolicy policyBefore :=
  ⟨fun _ _ _ hab hbc => le_trans hbc hab⟩

theorem SecurityZone.mem_all (z : SecurityZone) : z ∈ SecurityZone.all := by
  cases z <;> simp [SecurityZone.all]

theorem quarantineDeny_mem_defaults (z : SecurityZone)
    (hz : z ≠ SecurityZone.iot_quarantine) :
    quarantineDeny z ∈ defaultPolicies := by
  have h4 : quarantineDeny z
      ∈ (SecurityZone.all.filter
          (fun z => decide (z ≠ SecurityZone.iot_quarantine))).map quarantineDeny :=
    List.mem_map_of_mem _ (List.mem_filter.2 ⟨SecurityZone.mem_all z, by simp [hz]⟩)
  unfold defaultPolicies
  simp only [List.mem_append]
  tauto

theorem quarantineDeny_passes_filter (z : SecurityZone) (protocol : String)
    (port : Int) :
    ((quarantineDeny z).enabled &&
      (quarantineDeny z).matches .iot_quarantine z protocol port) = true := by
  simp [quarantineDeny, NetworkPolicy.matches]

/-- Every default policy of priority at least 300 is a deny rule
(they are exactly the quarantine isolation rules). -/
theorem default_high_priority_deny :
    ∀ p ∈ defaultPolicies, 300 ≤ p.priority → p.action = "deny" := by
  decide

/-- C1 (confirmed): under the default policy set, and after appending any
allow policies of priority strictly below 300, `evaluate_traffic` denies
every flow from a device in `iot_quarantine` to a device in any other zone,
for every protocol and port: the priority-300 quarantine deny rule always
outranks the added rules. -/
theorem quarantine_isolation_invariant (added : List NetworkPolicy)
    (hadd : ∀ p ∈ added, p.action = "allow" ∧ p.priority < 300)
    (zones : String → Option SecurityZone) (log : List TrafficLogEntry)
    (m : SegMetrics) (src_device dst_device : String) (z : SecurityZone)
    (hsrc : zones src_device = some .iot_quarantine)
    (hdst : zones dst_device = some z) (hz : z ≠ .iot_quarantine)
    (protocol : String) (port : Int) :
    (evaluate_traffic ⟨zones, defaultPolicies ++ added, log, m⟩
        src_device dst_device protocol port).1 = false := by
  have hdm : quarantineDeny z
      ∈ matchingPolicies (defaultPolicies ++ added) .iot_quarantine z protocol port := by
    unfold matchingPolicies sortedPolicies
    exact List.mem_filter.2
      ⟨(List.mem_insertionSort policyBefore).2
        (List.mem_append.2 (Or.inl (quarantineDeny_mem_defaults z hz))),
       quarantineDeny_passes_filter z protocol port⟩
  have hpw : List.Pairwise policyBefore
      (matchingPolicies (defaultPolicies ++ added) .iot_quarantine z protocol port) := by
    unfold matchingPolicies sortedPolicies
    exact List.Pairwise.filter _ (List.sorted_insertionSort policyBefore _)
  simp only [evaluate_traffic, hsrc, hdst]
  cases hL : matchingPolicies (defaultPolicies ++ added) .iot_quarantine z protocol port with
  | nil =>
    exact absurd (hL ▸ hdm) (List.not_mem_nil _)
  | cons hd tl =>
    rw [hL] at hdm hpw
    have h300 : (300 : Int) ≤ hd.priority := by
      rcases List.mem_cons.1 hdm with heq | hmem
      · rw [← heq]
        exact le_refl 300
      · exact (List.pairwise_cons.1 hpw).1 _ hmem
    have hmemh : hd ∈ defaultPolicies ++ added := by
      have hself : hd ∈ matchingPolicies (defaultPolicies ++ added)
          .iot_quarantine z protocol port := by
        rw [hL]
        exact List.mem_cons_self _ _
      unfold matchingPolicies sortedPolicies at hself
      exact (List.mem_insertionSort policyBefore).1 (List.mem_filter.1 hself).1
    have hdeny : hd.action = "deny" := by
      rcases List.mem_append.1 hmemh with hdef | ha
      · exact default_high_priority_deny hd hdef h300
      · exact absurd h300 (not_le.2 (hadd hd ha).2)
    simp [hdeny]

/-- Witness for C1: a permissive priority-250 quarantine-to-dmz rule is
added, yet the flow from the quarantined device to the dmz device is still denied. -/
theorem quarantine_isolation_invariant_witness :
    (evaluate_traffic
      ⟨(fun d => if d = "q" then some .iot_quarantine else
          if d = "d" then some .dmz else none),
       defaultPolicies ++
         [⟨"quarantine_allow_experiment", .iot_quarantine, .dmz, ["*"], [0],
           "allow", 250, true⟩],
       [], ⟨0, 0, 0, 0⟩⟩ "q" "d" "https" 443).1 = false :=
  quarantine_isolation_invariant
    [⟨"quarantine_allow_experiment", .iot_quarantine, .dmz, ["*"], [0],
      "allow", 250, true⟩]
    (by decide)
    (fun d => if d = "q" then some .iot_quarantine else
      if d = "d" then some .dmz else none)
    [] ⟨0, 0, 0, 0⟩ "q" "d" .dmz (by decide) (by decide) (by decide) "https" 443

end IoTSec
